import Mathlib

set_option maxRecDepth 100000

/-!
Verification of the scilab-rag Graph-RAG core: a shallow embedding of
`app/services/utils.py` (`parse_fn`), `app/services/store.py`
(`GraphRAGStore`), `app/services/query_engine.py` (`GraphRAGQueryEngine`),
`app/services/extractor.py` (`GraphRAGExtractor`) and
`app/services/auto_tagger.py` (`AutoTagger`), together with theorems that
settle the specification's claims about them.

Conventions of the embedding:
* Python exceptions are modelled by `Except PyExc`; a Python function that
  can raise returns `Except PyExc α`.
* Python dicts are association lists; where the source can only produce
  unique keys the list has unique keys, and lookup/overwrite semantics
  mirror CPython (insertion order preserved, assignment overwrites in
  place, `dict.get` returns the last-written binding).
* Python sets are modelled as insertion-ordered duplicate-free lists; only
  membership facts are proved about them (CPython set iteration order is
  unspecified).
* The LLM, the Leiden clustering collaborator and the similarity retriever
  are external collaborators and enter as explicit function parameters;
  functions that issue chat calls also return the list of calls they made,
  so "how many LLM calls happened" is part of the state being reasoned
  about.
* `json.loads` is modelled by an executable recursive-descent parser for
  the JSON grammar accepted by CPython's strict decoder (the `\uXXXX`
  surrogate-pair corner,  which no claim exercises, is rejected rather
  than accepted).
-/

/-! ## Python-level preliminaries -/

/-- Python exception kinds distinguished by the embedded code. -/
inductive PyExc where
  | valueError
  | typeError
  | attributeError
  | timeoutError
  | otherError
  deriving DecidableEq, Repr

/-- The open-brace character (written via `Char.ofNat` so that no raw brace
occurs outside string escapes). -/
def lbraceChar : Char := Char.ofNat 123

/-- The close-brace character. -/
def rbraceChar : Char := Char.ofNat 125

/-- Python `\s` / `str.strip()` whitespace (ASCII range): space, tab,
newline, carriage return, form feed, vertical tab. -/
def pyIsSpace (c : Char) : Bool :=
  c = ' ' || c = '\t' || c = '\n' || c = '\r' || c = Char.ofNat 11 || c = Char.ofNat 12

/-- Python `str.strip()` on a char list. -/
def pyStripChars (cs : List Char) : List Char :=
  ((cs.dropWhile pyIsSpace).reverse.dropWhile pyIsSpace).reverse

/-- Python `str.strip()`. -/
def pyStrip (s : String) : String := String.mk (pyStripChars s.data)

/-- Python `", ".join(...)`-style join (also used for `"\n".join`). -/
def pyJoin (sep : String) : List String → String
  | [] => ""
  | [x] => x
  | x :: xs => x ++ sep ++ pyJoin sep xs

/-- ASCII lower-casing, modelling Python `str.lower()` on ASCII data. -/
def pyLower (s : String) : String := String.mk (s.data.map Char.toLower)

/-! ## JSON values and the `json.loads` model -/

/-- JSON values as produced by `json.loads`.  A number keeps its source
lexeme (the claims never compute with numeric values). -/
inductive Json where
  | null
  | bool (b : Bool)
  | num (lexeme : String)
  | str (s : String)
  | arr (elems : List Json)
  | obj (members : List (String × Json))

/-- JSON structural whitespace accepted by CPython's decoder. -/
def jsonWs (c : Char) : Bool := c = ' ' || c = '\t' || c = '\n' || c = '\r'

/-- Skip JSON whitespace. -/
def skipWs (cs : List Char) : List Char := cs.dropWhile jsonWs

/-- Hex digit value. -/
def hexVal (c : Char) : Option Nat :=
  if '0' ≤ c ∧ c ≤ '9' then some (c.toNat - '0'.toNat)
  else if 'a' ≤ c ∧ c ≤ 'f' then some (c.toNat - 'a'.toNat + 10)
  else if 'A' ≤ c ∧ c ≤ 'F' then some (c.toNat - 'A'.toNat + 10)
  else none

/-- Parse the body of a JSON string literal (the opening quote already
consumed), handling the escape sequences CPython's strict decoder accepts
and rejecting unescaped control characters. -/
def parseStrBody : List Char → List Char → Option (String × List Char)
  | acc, '"' :: rest => some (String.mk acc.reverse, rest)
  | acc, '\\' :: e :: rest =>
    match e with
    | '"' => parseStrBody ('"' :: acc) rest
    | '\\' => parseStrBody ('\\' :: acc) rest
    | '/' => parseStrBody ('/' :: acc) rest
    | 'b' => parseStrBody (Char.ofNat 8 :: acc) rest
    | 'f' => parseStrBody (Char.ofNat 12 :: acc) rest
    | 'n' => parseStrBody ('\n' :: acc) rest
    | 'r' => parseStrBody ('\r' :: acc) rest
    | 't' => parseStrBody ('\t' :: acc) rest
    | 'u' =>
      match rest with
      | h1 :: h2 :: h3 :: h4 :: rest2 =>
        match hexVal h1, hexVal h2, hexVal h3, hexVal h4 with
        | some a, some b, some c, some d =>
          let n := ((a * 16 + b) * 16 + c) * 16 + d
          if n.isValidChar then parseStrBody (Char.ofNat n :: acc) rest2
          else none
        | _, _, _, _ => none
      | _ => none
    | _ => none
  | acc, c :: rest =>
    if c.toNat < 32 then none else parseStrBody (c :: acc) rest
  | _, [] => none

/-- Parse the digits etc. of a JSON number starting at `cs`; returns the
lexeme.  Grammar: `-? (0 | [1-9][0-9]*) (. [0-9]+)? ([eE][+-]?[0-9]+)?`. -/
def parseNumber (cs : List Char) : Option (String × List Char) :=
  let (sign, cs1) :=
    match cs with
    | '-' :: rest => (['-'], rest)
    | _ => (([] : List Char), cs)
  match cs1 with
  | [] => none
  | c :: rest =>
    if ¬ c.isDigit then none
    else
      let (intPart, cs2) :=
        if c = '0' then ([c], rest)
        else
          let more := rest.takeWhile Char.isDigit
          (c :: more, rest.drop more.length)
      let (fracPart, cs3) :=
        match cs2 with
        | '.' :: d :: rest2 =>
          if d.isDigit then
            let more := rest2.takeWhile Char.isDigit
            ('.' :: d :: more, rest2.drop more.length)
          else (([] : List Char), cs2)
        | _ => (([] : List Char), cs2)
      let (expPart, cs4) :=
        match cs3 with
        | e :: rest2 =>
          if e = 'e' ∨ e = 'E' then
            let (es, rest3) :=
              match rest2 with
              | s :: rest4 => if s = '+' ∨ s = '-' then ([e, s], rest4) else ([e], rest2)
              | [] => ([e], rest2)
            match rest3 with
            | d :: _ =>
              if d.isDigit then
                let more := rest3.takeWhile Char.isDigit
                (es ++ more, rest3.drop more.length)
              else (([] : List Char), cs3)
            | [] => (([] : List Char), cs3)
          else (([] : List Char), cs3)
        | [] => (([] : List Char), cs3)
      -- a dangling exponent marker invalidates the whole literal only if
      -- it was consumed; per the grammar above we simply stop before it
      some (String.mk (sign ++ intPart ++ fracPart ++ expPart), cs4)

mutual

/-- Parse one JSON value (leading whitespace allowed), fuel-bounded. -/
def parseVal : Nat → List Char → Option (Json × List Char)
  | 0, _ => none
  | fuel + 1, cs =>
    match skipWs cs with
    | [] => none
    | c :: rest =>
      if c = lbraceChar then
        match skipWs rest with
        | d :: rest2 =>
          if d = rbraceChar then some (.obj [], rest2)
          else parseMembers fuel (skipWs rest) []
        | [] => none
      else if c = '[' then
        match skipWs rest with
        | ']' :: rest2 => some (.arr [], rest2)
        | _ => parseItems fuel (skipWs rest) []
      else if c = '"' then
        match parseStrBody [] rest with
        | some (s, rest2) => some (.str s, rest2)
        | none => none
      else if c = 't' then
        match rest with
        | 'r' :: 'u' :: 'e' :: rest2 => some (.bool true, rest2)
        | _ => none
      else if c = 'f' then
        match rest with
        | 'a' :: 'l' :: 's' :: 'e' :: rest2 => some (.bool false, rest2)
        | _ => none
      else if c = 'n' then
        match rest with
        | 'u' :: 'l' :: 'l' :: rest2 => some (.null, rest2)
        | _ => none
      else if c = '-' ∨ c.isDigit then
        match parseNumber (c :: rest) with
        | some (lex, rest2) => some (.num lex, rest2)
        | none => none
      else none

/-- Parse the members of a JSON object (positioned at the first key). -/
def parseMembers : Nat → List Char → List (String × Json) →
    Option (Json × List Char)
  | 0, _, _ => none
  | fuel + 1, cs, acc =>
    match cs with
    | '"' :: rest =>
      match parseStrBody [] rest with
      | some (key, rest2) =>
        match skipWs rest2 with
        | ':' :: rest3 =>
          match parseVal fuel rest3 with
          | some (v, rest4) =>
            match skipWs rest4 with
            | ',' :: rest5 => parseMembers fuel (skipWs rest5) (acc ++ [(key, v)])
            | d :: rest5 =>
              if d = rbraceChar then some (.obj (acc ++ [(key, v)]), rest5)
              else none
            | [] => none
          | none => none
        | _ => none
      | none => none
    | _ => none

/-- Parse the items of a JSON array (positioned at the first item). -/
def parseItems : Nat → List Char → List Json → Option (Json × List Char)
  | 0, _, _ => none
  | fuel + 1, cs, acc =>
    match parseVal fuel cs with
    | some (v, rest) =>
      match skipWs rest with
      | ',' :: rest2 => parseItems fuel rest2 (acc ++ [v])
      | ']' :: rest2 => some (.arr (acc ++ [v]), rest2)
      | _ => none
    | none => none

end

/-- `json.loads` on a char list: one value, then only trailing whitespace
("Extra data" otherwise); `none` models `json.JSONDecodeError`. -/
def jsonLoadsL (cs : List Char) : Option Json :=
  match parseVal (cs.length + 1) cs with
  | some (j, rest) => if skipWs rest = [] then some j else none
  | none => none

/-- `json.loads` on a string. -/
def jsonLoads (s : String) : Option Json := jsonLoadsL s.data

/-! ## Python object protocol on decoded JSON values -/

/-- Lookup in a decoded JSON object as a CPython dict: with duplicate keys
the last binding wins (later `json` inserts overwrite earlier ones). -/
def dictGet (members : List (String × Json)) (k : String) : Option Json :=
  List.lookup k members.reverse

/-- Dict key iteration order: first-occurrence insertion order. -/
def dictKeys (members : List (String × Json)) : List String :=
  (members.map Prod.fst).dedup

/-- Python `x.get(k)` (`dict.get`, default `None`): only dicts have the
method; any other receiver raises `AttributeError`. -/
def pyGetMethod : Json → String → Except PyExc Json
  | .obj members, k => .ok ((dictGet members k).getD .null)
  | _, _ => .error .attributeError

/-- Python `x.get(k, default)`. -/
def pyGetMethodD : Json → String → Json → Except PyExc Json
  | .obj members, k, dflt => .ok ((dictGet members k).getD dflt)
  | _, _, _ => .error .attributeError

/-- Python `for e in x`: lists yield elements, strings yield one-character
strings, dicts yield their keys; `None`/bool/number raise `TypeError`. -/
def pyIter : Json → Except PyExc (List Json)
  | .arr xs => .ok xs
  | .str s => .ok (s.data.map fun c => .str (String.mk [c]))
  | .obj members => .ok ((dictKeys members).map .str)
  | _ => .error .typeError

/-! ## `parse_fn` (src/app/services/utils.py) -/

/-- Case-insensitive match of `pat` (given lower-cased) at the head. -/
def matchCI (pat : List Char) (cs : List Char) : Bool :=
  match pat, cs with
  | [], _ => true
  | _ :: _, [] => false
  | p :: ps, c :: cs => p = c.toLower && matchCI ps cs

/-- `re.sub(pat, "", s)` for a literal pattern, case-insensitive:
left-to-right removal of non-overlapping occurrences. -/
def removeAllCIAux (pat : List Char) : Nat → List Char → List Char
  | 0, cs => cs
  | _ + 1, [] => []
  | fuel + 1, c :: cs =>
    if pat ≠ [] ∧ matchCI pat (c :: cs) then
      removeAllCIAux pat fuel (cs.drop (pat.length - 1))
    else c :: removeAllCIAux pat fuel cs

/-- `re.sub(pat, "", s)` for a literal pattern, case-insensitive:
left-to-right removal of non-overlapping occurrences (fuel-bounded by the
input length, which each step strictly decreases). -/
def removeAllCI (pat : List Char) (cs : List Char) : List Char :=
  removeAllCIAux pat cs.length cs

/-- The fence-stripping of `parse_fn`: `re.sub(r"```json", "", s,
flags=IGNORECASE)` followed by `re.sub(r"```", "", s)` and `.strip()`. -/
def stripFences (cs : List Char) : List Char :=
  pyStripChars (removeAllCI "```".data (removeAllCI "```json".data cs))

/-- Index of the first character satisfying `p`, if any. -/
def firstIdx (p : Char → Bool) : List Char → Option Nat
  | [] => none
  | c :: cs => if p c then some 0 else (firstIdx p cs).map (· + 1)

/-- Index of the last character satisfying `p`, if any. -/
def lastIdx (p : Char → Bool) : List Char → Option Nat
  | [] => none
  | c :: cs =>
    match lastIdx p cs with
    | some i => some (i + 1)
    | none => if p c then some 0 else none

/-- `re.search(r"\{[\s\S]*\}", s)`: the leftmost match of this pattern is
the substring from the first open brace to the last close brace (the
greedy `[\s\S]*` backtracks from the end of the string), provided the
first open brace precedes the last close brace. -/
def braceCandidate (cs : List Char) : Option (List Char) :=
  match firstIdx (· = lbraceChar) cs, lastIdx (· = rbraceChar) cs with
  | some i, some j => if i < j then some ((cs.drop i).take (j - i + 1)) else none
  | _, _ => none

/-- The candidate JSON text `parse_fn` decodes, after fence stripping. -/
def parseFnCandidate (s : String) : Option (List Char) :=
  braceCandidate (stripFences s.data)

/-- An entity tuple `(entity_name, entity_type, entity_description)` as
built by `parse_fn` (each component is whatever `e.get(...)` returned). -/
abbrev EntTuple := Json × Json × Json

/-- A relationship tuple
`(source_entity, target_entity, relation, relationship_description)`. -/
abbrev RelTuple := Json × Json × Json × Json

/-- Read one entity element: `e.get("entity_name")`, `e.get("entity_type")`,
`e.get("entity_description")`. -/
def entityOfElem (e : Json) : Except PyExc EntTuple := do
  let a ← pyGetMethod e "entity_name"
  let b ← pyGetMethod e "entity_type"
  let c ← pyGetMethod e "entity_description"
  pure (a, b, c)

/-- Read one relationship element. -/
def relOfElem (r : Json) : Except PyExc RelTuple := do
  let a ← pyGetMethod r "source_entity"
  let b ← pyGetMethod r "target_entity"
  let c ← pyGetMethod r "relation"
  let d ← pyGetMethod r "relationship_description"
  pure (a, b, c, d)

/-- A Python `for` loop appending `f x` for each `x`, aborting on the
first raised exception. -/
def forCollect (f : α → Except PyExc β) : List α → Except PyExc (List β)
  | [] => .ok []
  | x :: xs =>
    match f x with
    | .error e => .error e
    | .ok y =>
      match forCollect f xs with
      | .error e => .error e
      | .ok ys => .ok (y :: ys)

/-- `parse_fn(response_str)` from `src/app/services/utils.py`: strip
markdown fences, locate the brace-delimited region, `json.loads` it
(returning two empty lists when the region is missing or decoding fails),
then read the `entities` and `relationships` elements.  The `Except`
result records that the two `for` loops and the `.get` calls can raise
(`TypeError` / `AttributeError`) on unexpected shapes — only
`json.JSONDecodeError` (a `ValueError`) is handled inside the function. -/
def parse_fn (response_str : String) :
    Except PyExc (List EntTuple × List RelTuple) :=
  let cleaned := stripFences response_str.data
  match braceCandidate cleaned with
  | none => .ok ([], [])
  | some cand =>
    match jsonLoadsL cand with
    | none => .ok ([], [])
    | some data =>
      match pyGetMethodD data "entities" (.arr []) with
      | .error e => .error e
      | .ok entIterable =>
        match pyIter entIterable with
        | .error e => .error e
        | .ok entElems =>
          match forCollect entityOfElem entElems with
          | .error e => .error e
          | .ok entities =>
            match pyGetMethodD data "relationships" (.arr []) with
            | .error e => .error e
            | .ok relIterable =>
              match pyIter relIterable with
              | .error e => .error e
              | .ok relElems =>
                match forCollect relOfElem relElems with
                | .error e => .error e
                | .ok relationships => .ok (entities, relationships)

/-- Recognizer for decoded JSON objects (Python dicts). -/
def isObjB : Json → Bool
  | .obj _ => true
  | _ => false

/-- Boolean form of "an array all of whose elements are objects". -/
def allObjsB : Json → Bool
  | .arr xs => xs.all isObjB
  | _ => false

/-- The entity tuple read from an entity element that is a dict (the
non-dict case never arises where this is used). -/
def entValue : Json → EntTuple
  | .obj kvs =>
    ((dictGet kvs "entity_name").getD .null,
     (dictGet kvs "entity_type").getD .null,
     (dictGet kvs "entity_description").getD .null)
  | _ => (.null, .null, .null)

/-- The relationship tuple read from a relationship element that is a
dict. -/
def relValue : Json → RelTuple
  | .obj kvs =>
    ((dictGet kvs "source_entity").getD .null,
     (dictGet kvs "target_entity").getD .null,
     (dictGet kvs "relation").getD .null,
     (dictGet kvs "relationship_description").getD .null)
  | _ => (.null, .null, .null, .null)

/-- Modelled from the spec: "locate the first balanced `{ ... }`
JSON-shaped substring via outermost-brace scan" — scan to the first open
brace, then track nesting depth until it returns to zero.  This is the
comparison point for the claim that `parse_fn`'s candidate selection
behaves this way; the code's actual selection is `braceCandidate`. -/
def balScan : List Char → Nat → List Char → Option (List Char)
  | [], _, _ => none
  | c :: cs, depth, acc =>
    if c = lbraceChar then balScan cs (depth + 1) (acc ++ [c])
    else if c = rbraceChar then
      match depth with
      | 0 => none
      | 1 => some (acc ++ [c])
      | d + 2 => balScan cs (d + 1) (acc ++ [c])
    else balScan cs depth (acc ++ [c])

/-- Modelled from the spec: the first balanced outermost brace region. -/
def firstBalanced (cs : List Char) : Option (List Char) :=
  balScan (cs.dropWhile (· ≠ lbraceChar)) 0 []

/-! ## Chat messages, prompts and response cleaning -/

/-- A chat message as passed to `llm.achat`. -/
structure ChatMsg where
  role : String
  content : String
  deriving DecidableEq, Repr

/-- One chat invocation is recorded as the message list it was given. -/
abbrev ChatCall := List ChatMsg

/-- The LLM chat collaborator: message list in, `str(response)` out. -/
abbrev ChatFn := List ChatMsg → String

/-- `COMMUNITY_SUMMARY_SYSTEM_PROMPT` from `src/app/core/prompts.py`
(fixed summarization instruction; no claim inspects its exact text). -/
def COMMUNITY_SUMMARY_SYSTEM_PROMPT : String :=
  "\nYou are provided with a set of relationships from a knowledge graph, each represented as \nentity1->entity2->relation->relationship_description. Your task is to create a summary of these \nrelationships. The summary should include the names of the entities involved and a concise synthesis \nof the relationship descriptions. The goal is to capture the most critical and relevant details that \nhighlight the nature and significance of each relationship. Ensure that the summary is coherent and \nintegrates the information in a way that emphasizes the key aspects of the relationships.\n"

/-- `QUERY_ANSWER_PROMPT` from `src/app/core/prompts.py`. -/
def QUERY_ANSWER_PROMPT : String :=
  "\nAnswer the question below as if you are responding directly to a user.\n\nGuidelines:\n- Do NOT mention or refer to any internal processes, summaries, or intermediate data.\n- Do NOT use phrases such as \"community summary\", \"based on the information above\",\n  \"the provided data\", \"no community\", or similar meta expressions.\n- Provide a natural, confident answer.\n- Reasoning and inference are allowed, but must remain implicit.\n\nQuestion:\n{query}\n"

/-- `AGGREGATE_ANSWERS_PROMPT` from `src/app/core/prompts.py`. -/
def AGGREGATE_ANSWERS_PROMPT : String :=
  "\nYou are responding to a user question based on user given context.\n\nInstructions:\n- Produce a single final answer.\n- Do NOT mention combining, aggregating, or synthesizing.\n- Do NOT refer to previous answers or internal steps.\n- The response must read as a direct standalone answer.\n"

/-- `re.sub(r"^assistant:\s*", "", str(response)).strip()` — the response
cleaning shared by the store and the query engine: one leading
`assistant:` label (with the whitespace following it) is removed if
present, then surrounding whitespace is stripped. -/
def stripAssistantLabel (cs : List Char) : List Char :=
  if cs.take 10 = "assistant:".data then (cs.drop 10).dropWhile pyIsSpace else cs

/-- The full response cleaning (label removal, then `.strip()`). -/
def cleanChatResponse (s : String) : String :=
  String.mk (pyStripChars (stripAssistantLabel s.data))

/-! ## GraphRAGStore (src/app/services/store.py) -/

/-- An entity node as returned inside a triplet by `get_triplets`. -/
structure EntityName where
  name : String
  deriving DecidableEq, Repr

/-- A relation as returned inside a triplet: `source_id` / `target_id`
(entity names), `label`, and a string-valued `properties` dict. -/
structure RelationRec where
  source_id : String
  target_id : String
  label : String
  properties : List (String × String)
  deriving DecidableEq, Repr

/-- A persisted triplet `(entity1, relation, entity2)`. -/
abbrev TripletRec := EntityName × RelationRec × EntityName

/-- An undirected NetworkX edge with its attribute dict
`{relationship, description}`. -/
structure NXEdge where
  u : String
  v : String
  relationship : String
  description : String
  deriving DecidableEq, Repr

/-- The in-memory `nx.Graph`: node list and edge list, both in insertion
order (NetworkX preserves insertion order for nodes and per-node
adjacency). -/
structure NXGraph where
  nodes : List String
  edges : List NXEdge
  deriving DecidableEq, Repr

/-- `nx_graph.add_node(n)`. -/
def addNode (g : NXGraph) (n : String) : NXGraph :=
  if n ∈ g.nodes then g else { g with nodes := g.nodes ++ [n] }

/-- Whether an edge record joins `u` and `v` (undirected key). -/
def edgeJoins (u v : String) (e : NXEdge) : Bool :=
  (e.u = u && e.v = v) || (e.u = v && e.v = u)

/-- `nx_graph.add_edge(u, v, relationship=, description=)`: endpoints are
added as nodes if missing; re-adding an existing undirected edge
overwrites its attributes in place (last write wins, no merge). -/
def addEdge (g : NXGraph) (u v rel desc : String) : NXGraph :=
  let g := addNode (addNode g u) v
  if g.edges.any (edgeJoins u v) then
    { g with
      edges := g.edges.map fun e =>
        if edgeJoins u v e then { e with relationship := rel, description := desc }
        else e }
  else { g with edges := g.edges ++ [⟨u, v, rel, desc⟩] }

/-- `GraphRAGStore._create_nx_graph`: nodes keyed by entity name, one
undirected edge per triplet keyed by the relation's
`source_id`/`target_id`, carrying the relation label and the
`relationship_description` property (defaulting to `""`). -/
def create_nx_graph (triplets : List TripletRec) : NXGraph :=
  triplets.foldl
    (fun g t =>
      let g := addNode g t.1.name
      let g := addNode g t.2.2.name
      addEdge g t.2.1.source_id t.2.1.target_id t.2.1.label
        ((List.lookup "relationship_description" t.2.1.properties).getD ""))
    ⟨[], []⟩

/-- `nx_graph.neighbors(n)` in adjacency insertion order. -/
def neighbors (g : NXGraph) (n : String) : List String :=
  g.edges.filterMap fun e =>
    if e.u = n then some e.v else if e.v = n then some e.u else none

/-- `nx_graph.get_edge_data(u, v)`. -/
def get_edge_data (g : NXGraph) (u v : String) : Option NXEdge :=
  g.edges.find? (edgeJoins u v)

/-- One `(node, cluster)` assignment from the hierarchical Leiden
collaborator. -/
structure ClusterItem where
  node : String
  cluster : Nat
  deriving DecidableEq, Repr

/-- The external clustering collaborator
(`hierarchical_leiden(graph, max_cluster_size)`), a parameter. -/
abbrev ClusterFn := NXGraph → Nat → List ClusterItem

/-- `defaultdict(set)` insert: add `c` to `k`'s id set (set modelled as a
duplicate-free list; only membership is relied upon). -/
def addToSet (m : List (String × List Nat)) (k : String) (c : Nat) :
    List (String × List Nat) :=
  match m with
  | [] => [(k, [c])]
  | (k0, v0) :: rest =>
    if k0 = k then (k0, if c ∈ v0 then v0 else v0 ++ [c]) :: rest
    else (k0, v0) :: addToSet rest k c

/-- `defaultdict(list)` append: append `d` to `k`'s bucket. -/
def addToBucket (m : List (Nat × List String)) (k : Nat) (d : String) :
    List (Nat × List String) :=
  match m with
  | [] => [(k, [d])]
  | (k0, v0) :: rest =>
    if k0 = k then (k0, v0 ++ [d]) :: rest
    else (k0, v0) :: addToBucket rest k d

/-- The relation line appended for `node`, `neighbor` and the edge data:
`"{node} -> {neighbor} -> {relationship} -> {description}"`. -/
def relationDetail (node neighbor : String) (e : NXEdge) : String :=
  node ++ " -> " ++ neighbor ++ " -> " ++ e.relationship ++ " -> " ++ e.description

/-- `GraphRAGStore._collect_community_info`: for each `(node, cluster)`
assignment, record the cluster id in the entity's membership set and
append one relation line per neighbor of the node into the cluster's
bucket. -/
def collect_community_info (g : NXGraph) (clusters : List ClusterItem) :
    List (String × List Nat) × List (Nat × List String) :=
  clusters.foldl
    (fun acc item =>
      let ei := addToSet acc.1 item.node item.cluster
      let ci :=
        (neighbors g item.node).foldl
          (fun ci nb =>
            match get_edge_data g item.node nb with
            | some e => addToBucket ci item.cluster (relationDetail item.node nb e)
            | none => ci)
          acc.2
      (ei, ci))
    ([], [])

/-- Python dict assignment `m[k] = v`: overwrite in place, else append. -/
def dictSet (m : List (Nat × String)) (k : Nat) (v : String) :
    List (Nat × String) :=
  match m with
  | [] => [(k, v)]
  | (k0, v0) :: rest =>
    if k0 = k then (k0, v) :: rest else (k0, v0) :: dictSet rest k v

/-- The store's mutable state: the community-summary cache and the
entity→community map (both empty at construction) plus
`max_cluster_size` (default 5). -/
structure Store where
  community_summary : List (Nat × String)
  entity_info : List (String × List Nat)
  max_cluster_size : Nat
  deriving DecidableEq, Repr

/-- The store as constructed (`community_summary = {}`,
`entity_info = {}`, `max_cluster_size = 5`). -/
def initStore : Store := ⟨[], [], 5⟩

/-- `GraphRAGStore.generate_community_summary`: one chat call with the
fixed system instruction and the relation text as the user turn; the
response is cleaned of a leading `assistant:` label and stripped.
Returns the cleaned response and the issued call. -/
def generate_community_summary (chat : ChatFn) (text : String) :
    String × ChatCall :=
  let messages : ChatCall :=
    [⟨"system", COMMUNITY_SUMMARY_SYSTEM_PROMPT⟩, ⟨"user", text⟩]
  (cleanChatResponse (chat messages), messages)

/-- `GraphRAGStore._summarize_communities`: for each community bucket in
order, join its lines with newlines, add a final period, issue one
summarization call, and assign the result into the summary cache — the
cache is written one entry at a time (each write follows an awaited LLM
call) and is never cleared first. -/
def summarize_communities (chat : ChatFn) (cache : List (Nat × String)) :
    List (Nat × List String) → List (Nat × String) × List ChatCall
  | [] => (cache, [])
  | ci :: rest =>
    let details_text := pyJoin "\n" ci.2 ++ "."
    let (summary, call) := generate_community_summary chat details_text
    let (cache', calls) := summarize_communities chat (dictSet cache ci.1 summary) rest
    (cache', call :: calls)

/-- `GraphRAGStore.build_communities`: materialize the NetworkX graph from
the stored triplets; return unchanged if it has no nodes; otherwise
cluster, replace `entity_info` with the freshly collected map, and run
per-community summarization over the existing summary cache.  Returns the
new store state and the chat calls issued. -/
def build_communities (chat : ChatFn) (clusterFn : ClusterFn)
    (triplets : List TripletRec) (st : Store) : Store × List ChatCall :=
  let nx_graph := create_nx_graph triplets
  if nx_graph.nodes.length = 0 then (st, [])
  else
    let clusters := clusterFn nx_graph st.max_cluster_size
    let (entity_info, community_info) := collect_community_info nx_graph clusters
    let (summary, calls) := summarize_communities chat st.community_summary community_info
    ({ st with entity_info := entity_info, community_summary := summary }, calls)

/-- `GraphRAGStore.get_community_summaries`: return the cache, lazily
triggering one `build_communities` first when the cache is empty. -/
def get_community_summaries (chat : ChatFn) (clusterFn : ClusterFn)
    (triplets : List TripletRec) (st : Store) :
    List (Nat × String) × Store × List ChatCall :=
  if st.community_summary.isEmpty then
    let (st', calls) := build_communities chat clusterFn triplets st
    (st'.community_summary, st', calls)
  else (st.community_summary, st, [])

/-! ## Python `repr`/`str` rendering (used by the aggregation f-string) -/

/-- Lower-case hex digit. -/
def hexDigit (n : Nat) : Char :=
  if n < 10 then Char.ofNat ('0'.toNat + n) else Char.ofNat ('a'.toNat + n - 10)

/-- CPython `str.isprintable` on one character: everything is printable
except the separator and other/control general categories (with U+0020
the one printable space).  The predicate is exact for every assigned
code point below U+0100 (Cc including the C1 range, the no-break space
U+00A0, the soft hyphen U+00AD) and for the standard separator (Zs, Zl,
Zp), format (Cf) and private-use (Co) code points above it; surrogates
cannot occur in a `Char`, and unassigned code points (Cn, also escaped
by CPython) are outside the model's scope — no theorem in this file
depends on the rendering of any code point at or above U+0080. -/
def pyIsPrintable (c : Char) : Bool :=
  let n := c.toNat
  if n < 0x20 ∨ (0x7f ≤ n ∧ n ≤ 0x9f) then false
  else if n = 0xa0 ∨ n = 0x1680 ∨ (0x2000 ≤ n ∧ n ≤ 0x200a) ∨ n = 0x2028 ∨
      n = 0x2029 ∨ n = 0x202f ∨ n = 0x205f ∨ n = 0x3000 then false
  else if n = 0xad ∨ (0x600 ≤ n ∧ n ≤ 0x605) ∨ n = 0x61c ∨ n = 0x6dd ∨
      n = 0x70f ∨ n = 0x890 ∨ n = 0x891 ∨ n = 0x8e2 ∨ n = 0x180e ∨
      (0x200b ≤ n ∧ n ≤ 0x200f) ∨ (0x202a ≤ n ∧ n ≤ 0x202e) ∨
      (0x2060 ≤ n ∧ n ≤ 0x2064) ∨ (0x2066 ≤ n ∧ n ≤ 0x206f) ∨ n = 0xfeff ∨
      (0xfff9 ≤ n ∧ n ≤ 0xfffb) ∨ n = 0x110bd ∨ n = 0x110cd ∨
      (0x13430 ≤ n ∧ n ≤ 0x1343f) ∨ (0x1bca0 ≤ n ∧ n ≤ 0x1bca3) ∨
      (0x1d173 ≤ n ∧ n ≤ 0x1d17a) ∨ n = 0xe0001 ∨
      (0xe0020 ≤ n ∧ n ≤ 0xe007f) then false
  else if (0xe000 ≤ n ∧ n ≤ 0xf8ff) ∨ (0xf0000 ≤ n ∧ n ≤ 0xffffd) ∨
      (0x100000 ≤ n ∧ n ≤ 0x10fffd) then false
  else true

/-- Escape one character inside a Python string repr with quote
character `q` (CPython `unicode_repr`): backslash and the quote are
escaped, `\n`/`\r`/`\t` use short escapes, and every other non-printable
character uses `\xNN`, `\uNNNN` or `\UNNNNNNNN` by code-point width. -/
def pyReprChar (q : Char) (c : Char) : List Char :=
  if c = '\\' then ['\\', '\\']
  else if c = q then ['\\', q]
  else if c = '\n' then ['\\', 'n']
  else if c = '\r' then ['\\', 'r']
  else if c = '\t' then ['\\', 't']
  else if pyIsPrintable c then [c]
  else
    let n := c.toNat
    if n ≤ 0xff then
      ['\\', 'x', hexDigit (n / 16 % 16), hexDigit (n % 16)]
    else if n ≤ 0xffff then
      ['\\', 'u', hexDigit (n / 4096 % 16), hexDigit (n / 256 % 16),
        hexDigit (n / 16 % 16), hexDigit (n % 16)]
    else
      ['\\', 'U', hexDigit (n / 0x10000000 % 16), hexDigit (n / 0x1000000 % 16),
        hexDigit (n / 0x100000 % 16), hexDigit (n / 0x10000 % 16),
        hexDigit (n / 4096 % 16), hexDigit (n / 256 % 16),
        hexDigit (n / 16 % 16), hexDigit (n % 16)]

/-- CPython `repr` of a string: single quotes unless the string contains a
single quote and no double quote. -/
def pyStrRepr (s : String) : String :=
  let q : Char :=
    if ('\'' ∈ s.data) ∧ ¬ ('"' ∈ s.data) then '"' else '\''
  String.mk (q :: s.data.flatMap (pyReprChar q) ++ [q])

/-- CPython `str`/f-string rendering of a list of strings, as in
`f"Intermediate answers: {community_answers}"`. -/
def pyListRepr (xs : List String) : String :=
  "[" ++ pyJoin ", " (xs.map pyStrRepr) ++ "]"

/-! ## GraphRAGQueryEngine (src/app/services/query_engine.py) -/

/-- Word characters of the regex `\w` (ASCII scope). -/
def isWordChar (c : Char) : Bool :=
  c.isAlpha || c.isDigit || c = '_'

/-- Right-strip of Python-regex whitespace. -/
def stripWsRight (cs : List Char) : List Char :=
  (cs.reverse.dropWhile pyIsSpace).reverse

/-- Whether a char list matches `\w+(?:\s+\w+)*`: word and whitespace
characters only, beginning and ending with a word character. -/
def wordSeq (cs : List Char) : Bool :=
  match cs with
  | [] => false
  | _ =>
    cs.all (fun c => isWordChar c || pyIsSpace c) &&
    isWordChar (cs.headD ' ') && isWordChar (cs.getLast?.getD ' ')

/-- Match one line of retrieved node text against the pattern
`^(\w+(?:\s+\w+)*)\s*->\s*([a-zA-Z\s]+?)\s*->\s*(\w+(?:\s+\w+)*)$`
(case-insensitive; `\w`, `[a-zA-Z]` and `\s` already cover both cases).
None of the three segment character classes can contain `-` or `>`, so a
line matches exactly when splitting on `->` yields three conforming
segments; the captured groups are the first and third segments with the
adjacent whitespace consumed by `\s*`. -/
def lineEntityMatch (line : String) : Option (String × String) :=
  match line.splitOn "->" with
  | [p1, p2, p3] =>
    let subj := stripWsRight p1.data
    let obj := p3.data.dropWhile pyIsSpace
    if wordSeq subj &&
        (¬ p2.data.isEmpty && p2.data.all (fun c => c.isAlpha || pyIsSpace c)) &&
        wordSeq obj then
      some (String.mk subj, String.mk obj)
    else none
  | _ => none

/-- Insert into a Python set modelled as an insertion-ordered
duplicate-free list. -/
def setAdd (s : List String) (x : String) : List String :=
  if x ∈ s then s else s ++ [x]

/-- `GraphRAGQueryEngine.get_entities` on the texts the similarity
retriever returned (the retriever itself is an external collaborator):
scan every line of every node text for the `entity -> relation -> entity`
pattern and collect the subject and object capture groups into a set. -/
def get_entities (texts : List String) : List String :=
  texts.foldl
    (fun acc text =>
      (text.splitOn "\n").foldl
        (fun acc line =>
          match lineEntityMatch line with
          | some (subj, obj) => setAdd (setAdd acc subj) obj
          | none => acc)
        acc)
    []

/-- `GraphRAGQueryEngine.retrieve_entity_communities`: union the community
ids of every candidate entity present in the membership map (entities
absent from the map are skipped), deduplicated. -/
def retrieve_entity_communities (entity_info : List (String × List Nat))
    (entities : List String) : List Nat :=
  (entities.foldl
    (fun acc e =>
      match List.lookup e entity_info with
      | some ids => acc ++ ids
      | none => acc)
    []).dedup

/-- `QUERY_ANSWER_PROMPT.format(query=query)`. -/
def formatQueryPrompt (query : String) : String :=
  QUERY_ANSWER_PROMPT.replace "{query}" query

/-- `GraphRAGQueryEngine.generate_answer_from_summary`: one chat call with
the community summary as system context; the response is cleaned of a
leading `assistant:` label. -/
def generate_answer_from_summary (chat : ChatFn) (community_summary query : String) :
    String × ChatCall :=
  let messages : ChatCall :=
    [⟨"system", community_summary⟩, ⟨"user", formatQueryPrompt query⟩]
  (cleanChatResponse (chat messages), messages)

/-- The user-turn content of the aggregation call:
`f"Intermediate answers: {community_answers}"`. -/
def aggUserContent (community_answers : List String) : String :=
  "Intermediate answers: " ++ pyListRepr community_answers

/-- `GraphRAGQueryEngine.aggregate_answers`: a single chat call whose
system turn is the fixed aggregation instruction and whose user turn
renders the intermediate answers; the response is cleaned of a leading
`assistant:` label and stripped.  Returns the result and the calls
issued (by construction a one-element list). -/
def aggregate_answers (chat : ChatFn) (community_answers : List String) :
    String × List ChatCall :=
  let messages : ChatCall :=
    [⟨"system", AGGREGATE_ANSWERS_PROMPT⟩,
     ⟨"user", aggUserContent community_answers⟩]
  (cleanChatResponse (chat messages), [messages])

/-- The fixed fallback answer. -/
def FALLBACK_ANSWER : String :=
  "I don't have enough information to answer this question."

/-- The per-community answer loop of `acustom_query`: walk the summary
cache in iteration order and answer from every community whose id is in
the retrieved id set. -/
def community_answers_loop (chat : ChatFn) (query_str : String)
    (community_ids : List Nat) :
    List (Nat × String) → List String × List ChatCall
  | [] => ([], [])
  | idSummary :: rest =>
    if idSummary.1 ∈ community_ids then
      let (answer, call) := generate_answer_from_summary chat idSummary.2 query_str
      let (answers, calls) := community_answers_loop chat query_str community_ids rest
      (answer :: answers, call :: calls)
    else community_answers_loop chat query_str community_ids rest

/-- `GraphRAGQueryEngine.acustom_query`: retrieve entities from the
retriever's texts, map them to community ids against the *current*
`entity_info`, fetch the community summaries (lazily building them if the
cache is empty), generate one answer per relevant community in cache
iteration order, and either return the fixed fallback (when no community
answer was produced) or aggregate.  Returns the answer, the resulting
store state and every chat call issued during the request. -/
def acustom_query (chat : ChatFn) (clusterFn : ClusterFn)
    (triplets : List TripletRec) (retrievedTexts : List String)
    (query_str : String) (st : Store) : String × Store × List ChatCall :=
  let entities := get_entities retrievedTexts
  let community_ids := retrieve_entity_communities st.entity_info entities
  let (community_summaries, st', buildCalls) :=
    get_community_summaries chat clusterFn triplets st
  let (community_answers, answerCalls) :=
    community_answers_loop chat query_str community_ids community_summaries
  if community_answers.isEmpty then
    (FALLBACK_ANSWER, st', buildCalls ++ answerCalls)
  else
    let (final_answer, aggCalls) := aggregate_answers chat community_answers
    (final_answer, st', buildCalls ++ answerCalls ++ aggCalls)

/-! ## GraphRAGExtractor (src/app/services/extractor.py) -/

/-- A text chunk node as seen by the extractor: its text, its plain
string metadata, and the two metadata entries `KG_NODES_KEY` /
`KG_RELATIONS_KEY` holding accumulated entity and relation records
(modelled as separate fields of the heterogeneous metadata dict). -/
structure XEntityNode where
  name : Json
  label : Json
  properties : List (String × Json)


structure XRelation where
  source_id : Json
  target_id : Json
  label : Json
  properties : List (String × Json)


structure XNode where
  text : String
  metadata : List (String × String)
  kgNodes : List XEntityNode
  kgRelations : List XRelation


/-- Chunk metadata lifted into the heterogeneous property dict copied onto
each extracted record. -/
def liftMeta (m : List (String × String)) : List (String × Json) :=
  m.map fun kv => (kv.1, .str kv.2)

/-- `GraphRAGExtractor._aextract` for one chunk, given the outcome of the
per-chunk LLM invocation (`llm.apredict` may raise any exception kind):
parse the response with `parse_fn`, catching **only** `ValueError` (which
degrades the chunk to zero entities and zero relations), then append the
extracted records to the chunk's metadata.  Every entity record carries
chunk metadata plus `entity_description`; every relation record carries
chunk metadata plus `relation_description` (note the key name). -/
def aextract (llmOutcome : Except PyExc String) (node : XNode) :
    Except PyExc XNode :=
  let attempt : Except PyExc (List EntTuple × List RelTuple) :=
    match llmOutcome with
    | .error e => .error e
    | .ok llm_response => parse_fn llm_response
  let caught : Except PyExc (List EntTuple × List RelTuple) :=
    match attempt with
    | .error .valueError => .ok ([], [])
    | other => other
  match caught with
  | .error e => .error e
  | .ok (entities, entities_relationship) =>
    .ok { node with
      kgNodes := node.kgNodes ++ entities.map (fun t =>
        { name := t.1, label := t.2.1,
          properties := liftMeta node.metadata ++ [("entity_description", t.2.2)] }),
      kgRelations := node.kgRelations ++ entities_relationship.map (fun t =>
        { source_id := t.1, target_id := t.2.1, label := t.2.2.1,
          properties := liftMeta node.metadata ++ [("relation_description", t.2.2.2)] }) }

/-- `GraphRAGExtractor.acall`: run `_aextract` over every chunk via
`run_jobs` (asyncio gather semantics: results in input order, the first
raised exception propagates and aborts the batch). -/
def extractor_acall (llm : String → Except PyExc String) :
    List XNode → Except PyExc (List XNode)
  | [] => .ok []
  | node :: rest =>
    match aextract (llm node.text) node with
    | .error e => .error e
    | .ok node' =>
      match extractor_acall llm rest with
      | .error e => .error e
      | .ok rest' => .ok (node' :: rest')

/-! ## AutoTagger (src/app/services/auto_tagger.py) -/

mutual

/-- CPython `repr` of a decoded JSON value (needed because
`_default_parse_tags` applies `str(tag)` to arbitrary decoded values and
`str` of a container is its repr). -/
def pyJsonRepr : Json → String
  | .null => "None"
  | .bool true => "True"
  | .bool false => "False"
  | .num lexeme => lexeme
  | .str s => pyStrRepr s
  | .arr xs => "[" ++ pyJoin ", " (pyJsonReprList xs) ++ "]"
  | .obj kvs => "\x7b" ++ pyJoin ", " (pyJsonReprKVs kvs) ++ "\x7d"

def pyJsonReprList : List Json → List String
  | [] => []
  | x :: xs => pyJsonRepr x :: pyJsonReprList xs

def pyJsonReprKVs : List (String × Json) → List String
  | [] => []
  | kv :: kvs => (pyStrRepr kv.1 ++ ": " ++ pyJsonRepr kv.2) :: pyJsonReprKVs kvs

end

/-- Python `str(x)` for a decoded JSON value: identity on strings,
`True`/`False`/`None` for bool and null, the numeric text for numbers and
the repr for containers. -/
def pyStr : Json → String
  | .str s => s
  | v => pyJsonRepr v

/-- Python truthiness of a decoded JSON value (a number is falsy exactly
when its mantissa has no nonzero digit). -/
def pyTruthy : Json → Bool
  | .null => false
  | .bool b => b
  | .num lexeme =>
    (lexeme.data.takeWhile fun c => c ≠ 'e' ∧ c ≠ 'E').any fun c =>
      '1' ≤ c ∧ c ≤ '9'
  | .str s => ¬ s.isEmpty
  | .arr xs => ¬ xs.isEmpty
  | .obj kvs => ¬ kvs.isEmpty

/-- `AutoTagger._default_parse_tags`: strip fences when the response
starts with ```` ``` ````, `json.loads` the cleaned text, and when the
result is a dict with a `tags` list, keep `str(tag).strip()` of every
truthy, non-blank element; every failure mode degrades to `[]`. -/
def default_parse_tags (response : String) : List String :=
  if response.isEmpty ∨ (pyStrip response).isEmpty then []
  else
    let clean_response := pyStrip response
    let clean_response :=
      if clean_response.startsWith "```" then
        let lines := clean_response.splitOn "\n"
        let c :=
          if lines.length > 2 then pyJoin "\n" (lines.drop 1).dropLast
          else clean_response
        (c.replace "```json" "").replace "```" ""
      else clean_response
    match jsonLoads (pyStrip clean_response) with
    | none => []
    | some data =>
      match data with
      | .obj members =>
        match dictGet members "tags" with
        | some (.arr tags) =>
          tags.filterMap fun tag =>
            if pyTruthy tag ∧ ¬ (pyStrip (pyStr tag)).isEmpty then
              some (pyStrip (pyStr tag))
            else none
        | some _ => []
        | none => []
      | _ => []

/-- `AutoTagger._is_semantic_duplicate`: plural/singular and
hyphen/space/underscore variants against the seen set. -/
def is_semantic_duplicate (tag : String) (seen : List String) : Bool :=
  (tag.endsWith "s" && (tag.dropRight 1) ∈ seen) ||
  (tag ++ "s") ∈ seen ||
  (tag.replace "-" " ") ∈ seen ||
  (tag.replace " " "-") ∈ seen ||
  (tag.replace "_" " ") ∈ seen ||
  (tag.replace " " "_") ∈ seen

/-- `AutoTagger._remove_duplicate_tags`: case-insensitive dedup against
the already-seen set seeded with the configured existing tags. -/
def remove_duplicate_tags (existing_tags : List String) (tags : List String) :
    List String :=
  if tags.isEmpty then []
  else
    let seen := existing_tags.map fun t => pyLower (pyStrip t)
    (tags.foldl
      (fun acc tag =>
        let tag := pyStrip tag
        if tag.isEmpty then acc
        else
          let normalized := pyLower tag
          if normalized ∈ acc.1 then acc
          else if is_semantic_duplicate normalized acc.1 then acc
          else (acc.1 ++ [normalized], acc.2 ++ [tag]))
      (seen, [])).2

/-- Which prompt template an `llm.apredict` call used (the tagger issues
chunk-summary, global-summary and tag-generation calls). -/
inductive TagPrompt where
  | chunkSummary
  | globalSummary
  | tagGen
  deriving DecidableEq, Repr

/-- The tagger's LLM collaborator: prompt kind and context in, text or a
raised exception out. -/
abbrev PredictFn := TagPrompt → String → Except PyExc String

/-- Metadata values that the tagger writes. -/
inductive TagMetaVal where
  | s (v : String)
  | tags (ts : List String)
  deriving DecidableEq, Repr

/-- A document chunk node as seen by the tagger. -/
structure TNode where
  text : String
  metadata : List (String × TagMetaVal)
  deriving DecidableEq, Repr

/-- Python dict assignment on tagger metadata. -/
def metaSet (m : List (String × TagMetaVal)) (k : String) (v : TagMetaVal) :
    List (String × TagMetaVal) :=
  match m with
  | [] => [(k, v)]
  | (k0, v0) :: rest =>
    if k0 = k then (k0, v) :: rest else (k0, v0) :: metaSet rest k v

/-- `AutoTagger._summarize_chunk`: per-chunk summary, any invocation error
degrading to `""`. -/
def summarize_chunk (predict : PredictFn) (node : TNode) : String :=
  match predict .chunkSummary node.text with
  | .ok response => pyStrip response
  | .error _ => ""

/-- `AutoTagger._create_global_summary`: join the non-blank chunk
summaries and summarize them, any invocation error degrading to `""`. -/
def create_global_summary (predict : PredictFn) (chunk_summaries : List String) :
    String :=
  let valid_summaries := chunk_summaries.filter fun s => ¬ (pyStrip s).isEmpty
  if valid_summaries.isEmpty then ""
  else
    match predict .globalSummary (pyJoin "\n\n" valid_summaries) with
    | .ok response => pyStrip response
    | .error _ => ""

/-- `AutoTagger._generate_tags`: tag generation from the global summary,
an empty summary or any invocation error degrading to `[]`. -/
def generate_tags (predict : PredictFn) (summary : String) : List String :=
  if (pyStrip summary).isEmpty then []
  else
    match predict .tagGen summary with
    | .ok response => default_parse_tags response
    | .error _ => []

/-- The first node with document-level summary and tags written into its
metadata. -/
def withSummaryTags (n : TNode) (summary : String) (tags : List String) : TNode :=
  { n with metadata := metaSet (metaSet n.metadata "summary" (.s summary)) "tags" (.tags tags) }

/-- Attach the document-level summary and tags to the first node. -/
def attachToFirst (nodes : List TNode) (summary : String) (tags : List String) :
    List TNode :=
  match nodes with
  | n :: rest => withSummaryTags n summary tags :: rest
  | [] => []

/-- `AutoTagger.acall`: summarize every chunk, merge into a global
summary, generate and deduplicate tags, and attach summary and tags to
the first node's metadata.  Each step already degrades its own failures
(so the surrounding `except Exception` handler, which would write
`summary = ""` and `tags = []`, is unreachable for LLM-invocation
failures), and the function never propagates an exception. -/
def tagger_acall (predict : PredictFn) (existing_tags : List String)
    (nodes : List TNode) : List TNode :=
  if nodes.isEmpty then nodes
  else
    let chunk_summaries := nodes.map (summarize_chunk predict)
    let global_summary := create_global_summary predict chunk_summaries
    let tags := generate_tags predict global_summary
    let tags := remove_duplicate_tags existing_tags tags
    attachToFirst nodes global_summary tags

/-! ## Concrete fixtures used by counterexamples and witnesses -/

/-- A string is "plain" when CPython's repr is guaranteed to render it
verbatim between quotes: only printable ASCII characters (U+0020–U+007E),
no backslash, and not both kinds of quote.  (Outside this set repr may
escape: a backslash always, and any non-printable — also non-ASCII ones
such as U+00A0 — via `\xNN`-style escapes.) -/
def plainPyStr (s : String) : Bool :=
  s.data.all (fun c => c ≠ '\\' && 32 ≤ c.toNat && c.toNat ≤ 126) &&
  ¬ (('\'' ∈ s.data) ∧ ('"' ∈ s.data))

/-- How an extractor-produced relation is persisted and then returned by
`get_triplets`: ids, label and properties pass through (string-valued
properties stay strings). -/
def persistRelation (r : XRelation) : RelationRec :=
  ⟨pyStr r.source_id, pyStr r.target_id, pyStr r.label,
   r.properties.map fun kv => (kv.1, pyStr kv.2)⟩

/-- The triplet the store retrieves for a persisted relation. -/
def persistTriplet (r : XRelation) : TripletRec :=
  (⟨pyStr r.source_id⟩, persistRelation r, ⟨pyStr r.target_id⟩)

/-- A chat collaborator answering every call with a fixed string. -/
def constChat : ChatFn := fun _ => "SUMMARY"

/-- C2 fixture: an extraction response with entities `A`, `B`, `C` and
relationships `A-B` (description `d1`) and `B-C` (description `d2`). -/
def c2Response : String :=
  "\x7b\"entities\": [" ++
  "\x7b\"entity_name\": \"A\", \"entity_type\": \"Concept\", \"entity_description\": \"ea\"\x7d, " ++
  "\x7b\"entity_name\": \"B\", \"entity_type\": \"Concept\", \"entity_description\": \"eb\"\x7d, " ++
  "\x7b\"entity_name\": \"C\", \"entity_type\": \"Concept\", \"entity_description\": \"ec\"\x7d], " ++
  "\"relationships\": [" ++
  "\x7b\"source_entity\": \"A\", \"target_entity\": \"B\", \"relation\": \"related_to\", \"relationship_description\": \"d1\"\x7d, " ++
  "\x7b\"source_entity\": \"B\", \"target_entity\": \"C\", \"relation\": \"related_to\", \"relationship_description\": \"d2\"\x7d]\x7d"

/-- C2 fixture: the chunk node handed to the extractor. -/
def c2Node : XNode := ⟨"chunk text", [], [], []⟩

/-- C2 fixture: the triplets the store retrieves after the extractor's
records are persisted. -/
def c2Triplets : List TripletRec :=
  match aextract (.ok c2Response) c2Node with
  | .ok node => node.kgRelations.map persistTriplet
  | .error _ => []

/-- C2 fixture: the clustering collaborator puts `A`, `B`, `C` into the
single community `0`. -/
def c2ClusterFn : ClusterFn := fun _ _ => [⟨"A", 0⟩, ⟨"B", 0⟩, ⟨"C", 0⟩]

/-- C2 fixture: the store state after `build_communities`. -/
def c2Result : Store × List ChatCall :=
  build_communities constChat c2ClusterFn c2Triplets initStore

/-- C1 fixture: first build, one triplet `A-B`, clustered as community 1. -/
def c1Trip1 : List TripletRec :=
  [(⟨"A"⟩, ⟨"A", "B", "related_to", [("relationship_description", "x")]⟩, ⟨"B"⟩)]

/-- C1 fixture: second build, one triplet `C-D`, clustered as community 2. -/
def c1Trip2 : List TripletRec :=
  [(⟨"C"⟩, ⟨"C", "D", "related_to", [("relationship_description", "y")]⟩, ⟨"D"⟩)]

def c1ClusterFn1 : ClusterFn := fun _ _ => [⟨"A", 1⟩, ⟨"B", 1⟩]

def c1ClusterFn2 : ClusterFn := fun _ _ => [⟨"C", 2⟩, ⟨"D", 2⟩]

/-- C1 fixture: store after the first build. -/
def c1St1 : Store := (build_communities constChat c1ClusterFn1 c1Trip1 initStore).1

/-- C1 fixture: store after the rebuild over different data. -/
def c1St2 : Store := (build_communities constChat c1ClusterFn2 c1Trip2 c1St1).1

/-- C4 fixture: one stored triplet, community 0, empty caches, and a
retrieval that yields no text at all (so no candidate entity). -/
def c4Triplets : List TripletRec :=
  [(⟨"A"⟩, ⟨"A", "B", "related_to", [("relationship_description", "d")]⟩, ⟨"B"⟩)]

def c4ClusterFn : ClusterFn := fun _ _ => [⟨"A", 0⟩, ⟨"B", 0⟩]

/-- C4 fixture: the full request against an empty summary cache. -/
def c4Result : String × Store × List ChatCall :=
  acustom_query constChat c4ClusterFn c4Triplets [] "q" initStore

/-- C5 counterexample input: a valid JSON object whose `entities` value
is a list of integers. -/
def c5Bad : String := "\x7b\"entities\": [1]\x7d"

/-- C6 counterexample input: a complete valid JSON object followed by
unrelated trailing text containing a later close brace. -/
def c6Input : String :=
  "\x7b\"entities\": [\x7b\"entity_name\": \"A\"\x7d], \"relationships\": []\x7d see \x7d"

/-- C3 fixture: a chunk node. -/
def c3Node : XNode := ⟨"text", [], [], []⟩

/-- C3 fixture: a second chunk whose LLM call succeeds with an empty
extraction. -/
def c3GoodNode : XNode := ⟨"good", [], [], []⟩

/-- C3 fixture: an LLM collaborator that answers the first chunk and
times out on the second. -/
def c3Llm : String → Except PyExc String := fun t =>
  if t = "good" then .ok "\x7b\"entities\": [], \"relationships\": []\x7d"
  else .error .timeoutError

/-- C10 fixture: chunk and global summarization succeed, tag generation
raises. -/
def c10Predict : PredictFn := fun p _ =>
  match p with
  | .chunkSummary => .ok "CS"
  | .globalSummary => .ok "GS"
  | .tagGen => .error .timeoutError

def c10Nodes : List TNode := [⟨"text1", [("page", .s "1")]⟩, ⟨"text2", []⟩]

/-- C8 fixture: decoded entity elements of the round-trip payload. -/
def c8Entities : List Json :=
  [.obj [("entity_name", .str "E1"), ("entity_type", .str "Paper"),
         ("entity_description", .str "ed")]]

/-- C8 fixture: decoded relationship elements of the round-trip payload. -/
def c8Rels : List Json :=
  [.obj [("source_entity", .str "E1"), ("target_entity", .str "E2"),
         ("relation", .str "cites"), ("relationship_description", .str "rd")]]

/-- C8 fixture: the decoded top-level object. -/
def c8Members : List (String × Json) :=
  [("entities", .arr c8Entities), ("relationships", .arr c8Rels)]

/-- C8 fixture: the raw payload string. -/
def c8Payload : String :=
  "\x7b\"entities\": [\x7b\"entity_name\": \"E1\", \"entity_type\": \"Paper\", \"entity_description\": \"ed\"\x7d], " ++
  "\"relationships\": [\x7b\"source_entity\": \"E1\", \"target_entity\": \"E2\", \"relation\": \"cites\", \"relationship_description\": \"rd\"\x7d]\x7d"

/-- C2: the exact text the single summarization call receives for the
fixture community (note the empty description field after each final
arrow: the store looked up `relationship_description` but the extractor
stored `relation_description`). -/
def c2SummaryText : String :=
  "A -> B -> related_to -> \nB -> A -> related_to -> \nB -> C -> related_to -> \nC -> B -> related_to -> ."

/-- C4 witness fixture: a store whose summary cache is already warm. -/
def c4StWarm : Store := ⟨[(0, "s")], [], 5⟩

/-! ## Helper lemmas -/

theorem entityOfElem_obj (e : Json) (h : isObjB e = true) :
    entityOfElem e = .ok (entValue e) := by
  cases e <;> simp [isObjB] at h <;> rfl

theorem relOfElem_obj (r : Json) (h : isObjB r = true) :
    relOfElem r = .ok (relValue r) := by
  cases r <;> simp [isObjB] at h <;> rfl

theorem forCollect_map (f : α → Except PyExc β) (g : α → β) (xs : List α)
    (h : ∀ x ∈ xs, f x = .ok (g x)) : forCollect f xs = .ok (xs.map g) := by
  induction xs with
  | nil => rfl
  | cons x xs ih =>
    simp only [forCollect, h x (by simp), ih (fun y hy => h y (by simp [hy])),
      List.map_cons]

theorem allObjsB_arr (v : Json) (h : allObjsB v = true) :
    ∃ xs, v = .arr xs ∧ ∀ x ∈ xs, isObjB x = true := by
  cases v <;> simp [allObjsB] at h
  case arr xs => exact ⟨xs, rfl, by simpa [List.all_eq_true] using h⟩

theorem parse_fn_decoded (s : String) (cand : List Char)
    (members : List (String × Json)) (es rs : List Json)
    (hc : parseFnCandidate s = some cand)
    (hl : jsonLoadsL cand = some (.obj members))
    (hes : (dictGet members "entities").getD (.arr []) = .arr es)
    (hrs : (dictGet members "relationships").getD (.arr []) = .arr rs)
    (hesall : ∀ x ∈ es, isObjB x = true)
    (hrsall : ∀ x ∈ rs, isObjB x = true) :
    parse_fn s = .ok (es.map entValue, rs.map relValue) := by
  simp only [parseFnCandidate] at hc
  simp only [parse_fn, hc, hl, pyGetMethodD, hes, hrs, pyIter,
    forCollect_map entityOfElem entValue es
      (fun x hx => entityOfElem_obj x (hesall x hx)),
    forCollect_map relOfElem relValue rs
      (fun x hx => relOfElem_obj x (hrsall x hx))]

theorem mem_of_getElemOpt (l : List Char) (i : Nat) (a : Char)
    (h : l[i]? = some a) : a ∈ l := by
  induction l generalizing i with
  | nil => simp at h
  | cons c cs ih =>
    cases i with
    | zero => simp only [List.getElem?_cons_zero, Option.some_inj] at h; simp [h]
    | succ i0 =>
      simp only [List.getElem?_cons_succ] at h
      exact List.mem_cons_of_mem _ (ih i0 h)

theorem firstIdx_spec (p : Char → Bool) (cs : List Char) :
    ∀ i, firstIdx p cs = some i →
    ∃ c, cs[i]? = some c ∧ p c = true ∧
      ∀ k d, k < i → cs[k]? = some d → p d = false := by
  induction cs with
  | nil => intro i h; simp [firstIdx] at h
  | cons c cs ih =>
    intro i h
    simp only [firstIdx] at h
    by_cases hp : p c = true
    · rw [if_pos hp] at h
      cases h
      exact ⟨c, by simp, hp, by omega⟩
    · rw [if_neg hp] at h
      obtain ⟨i0, h0, rfl⟩ := Option.map_eq_some'.mp h
      obtain ⟨d, hd, hpd, hall⟩ := ih i0 h0
      refine ⟨d, by simpa using hd, hpd, ?_⟩
      intro k e hk hke
      cases k with
      | zero =>
        simp only [List.getElem?_cons_zero, Option.some_inj] at hke
        subst hke
        exact Bool.not_eq_true _ ▸ (by simpa using hp)
      | succ k0 =>
        exact hall k0 e (by omega) (by simpa using hke)

theorem lastIdx_none (p : Char → Bool) (cs : List Char)
    (h : lastIdx p cs = none) : ∀ d ∈ cs, p d = false := by
  induction cs with
  | nil => simp
  | cons c cs ih =>
    simp only [lastIdx] at h
    cases hcs : lastIdx p cs with
    | some i => rw [hcs] at h; simp at h
    | none =>
      rw [hcs] at h
      by_cases hp : p c = true
      · rw [if_pos hp] at h; simp at h
      · intro d hd
        rcases List.mem_cons.mp hd with rfl | hd
        · simpa using hp
        · exact ih hcs d hd

theorem lastIdx_spec (p : Char → Bool) (cs : List Char) :
    ∀ j, lastIdx p cs = some j →
    ∃ c, cs[j]? = some c ∧ p c = true ∧
      ∀ k d, j < k → cs[k]? = some d → p d = false := by
  induction cs with
  | nil => intro j h; simp [lastIdx] at h
  | cons c cs ih =>
    intro j h
    simp only [lastIdx] at h
    cases hcs : lastIdx p cs with
    | some i =>
      rw [hcs] at h
      cases h
      obtain ⟨d, hd, hpd, hall⟩ := ih i hcs
      refine ⟨d, by simpa using hd, hpd, ?_⟩
      intro k e hk hke
      cases k with
      | zero => omega
      | succ k0 => exact hall k0 e (by omega) (by simpa using hke)
    | none =>
      rw [hcs] at h
      by_cases hp : p c = true
      · rw [if_pos hp] at h
        cases h
        refine ⟨c, by simp, hp, ?_⟩
        intro k e hk hke
        cases k with
        | zero => omega
        | succ k0 =>
          exact lastIdx_none p cs hcs e (mem_of_getElemOpt cs k0 e (by simpa using hke))
      · rw [if_neg hp] at h; simp at h

/-! ## C5 — parse_fn failure policy -/

/-- **C5** (counterexample): `parse_fn` is *not* total on every input —
on the valid JSON object `{"entities": [1]}` the entity loop calls
`.get` on an integer element and raises `AttributeError` (only
`json.JSONDecodeError`, a `ValueError`, is handled inside `parse_fn`). -/
theorem parse_fn_raises_cex : parse_fn c5Bad = .error .attributeError := rfl

/-- **C5** (amended): for every input where no JSON-shaped region is
found, or where decoding the region fails, `parse_fn` returns two empty
sequences without raising; and it does not raise on any input whose
decoded `entities` and `relationships` values (defaulting to empty lists)
are lists of objects.  (The original claim's "never raises for every
input whatsoever" is refuted by `parse_fn_raises_cex`.) -/
theorem parse_fn_failure_policy (s : String) :
    (parseFnCandidate s = none → parse_fn s = .ok ([], [])) ∧
    (∀ cand, parseFnCandidate s = some cand → jsonLoadsL cand = none →
      parse_fn s = .ok ([], [])) ∧
    (∀ cand members, parseFnCandidate s = some cand →
      jsonLoadsL cand = some (.obj members) →
      allObjsB ((dictGet members "entities").getD (.arr [])) = true →
      allObjsB ((dictGet members "relationships").getD (.arr [])) = true →
      ∃ out, parse_fn s = .ok out) := by
  refine ⟨fun h => ?_, fun cand hc hl => ?_, fun cand members hc hl he hr => ?_⟩
  · simp only [parseFnCandidate] at h
    simp only [parse_fn, h]
  · simp only [parseFnCandidate] at hc
    simp only [parse_fn, hc, hl]
  · obtain ⟨es, hes, hesall⟩ := allObjsB_arr _ he
    obtain ⟨rs, hrs, hrsall⟩ := allObjsB_arr _ hr
    exact ⟨_, parse_fn_decoded s cand members es rs hc hl hes hrs hesall hrsall⟩

/-- Witness for `parse_fn_failure_policy` at concrete inputs: an empty
string (no region), a region that is not JSON, and a benign decoded
shape. -/
theorem parse_fn_failure_policy_witness :
    parse_fn "" = .ok ([], []) ∧
    parse_fn "\x7b not json \x7d" = .ok ([], []) ∧
    ∃ out, parse_fn "\x7b\"entities\": []\x7d" = .ok out :=
  ⟨(parse_fn_failure_policy "").1 (by decide),
   (parse_fn_failure_policy "\x7b not json \x7d").2.1 _ rfl rfl,
   (parse_fn_failure_policy "\x7b\"entities\": []\x7d").2.2 _ [("entities", .arr [])]
     rfl rfl (by decide) (by decide)⟩

/-! ## C6 — candidate selection -/

/-- **C6** (counterexample): the candidate `parse_fn` decodes is *not*
the first balanced brace region.  On a complete valid JSON object
followed by trailing text containing a later close brace, the greedy
regex selects first-open-brace..last-close-brace, decoding fails, and
`parse_fn` returns two empty sequences — whereas the spec-modelled
outermost-brace scan would have selected the decodable object. -/
theorem parse_fn_candidate_greedy_cex :
    parseFnCandidate c6Input ≠ firstBalanced (stripFences c6Input.data) ∧
    (∃ g, firstBalanced (stripFences c6Input.data) = some g ∧
      (jsonLoadsL g).isSome = true) ∧
    parse_fn c6Input = .ok ([], []) := by
  exact ⟨by decide,
    ⟨("\x7b\"entities\": [\x7b\"entity_name\": \"A\"\x7d], \"relationships\": []\x7d" : String).data,
      rfl, by decide⟩, rfl⟩

/-- **C6** (amended): after stripping markdown fences, the candidate JSON
text `parse_fn` selects is the substring extending from the *first* open
brace to the *last* close brace of the whole remaining text (the greedy
`\{[\s\S]*\}` regex), provided the former precedes the latter — not the
first balanced region. -/
theorem braceCandidate_first_to_last (s : String) (cand : List Char)
    (h : parseFnCandidate s = some cand) :
    ∃ i j, i < j ∧
      (stripFences s.data)[i]? = some lbraceChar ∧
      (stripFences s.data)[j]? = some rbraceChar ∧
      (∀ k d, k < i → (stripFences s.data)[k]? = some d → d ≠ lbraceChar) ∧
      (∀ k d, j < k → (stripFences s.data)[k]? = some d → d ≠ rbraceChar) ∧
      cand = ((stripFences s.data).drop i).take (j - i + 1) := by
  simp only [parseFnCandidate, braceCandidate] at h
  cases hf : firstIdx (fun c => c = lbraceChar) (stripFences s.data) with
  | none => rw [hf] at h; simp at h
  | some i =>
    cases hl : lastIdx (fun c => c = rbraceChar) (stripFences s.data) with
    | none => rw [hf, hl] at h; simp at h
    | some j =>
      rw [hf, hl] at h
      dsimp only at h
      by_cases hij : i < j
      · rw [if_pos hij] at h
        cases h
        obtain ⟨c, hc, hpc, hfirst⟩ := firstIdx_spec _ _ _ hf
        obtain ⟨d, hd, hpd, hlast⟩ := lastIdx_spec _ _ _ hl
        have hceq : c = lbraceChar := by simpa using hpc
        have hdeq : d = rbraceChar := by simpa using hpd
        subst hceq hdeq
        refine ⟨i, j, hij, hc, hd, ?_, ?_, rfl⟩
        · intro k e hk hke
          have := hfirst k e hk hke
          simpa using this
        · intro k e hk hke
          have := hlast k e hk hke
          simpa using this
      · rw [if_neg hij] at h; simp at h

/-- Witness for `braceCandidate_first_to_last` on the counterexample
input (trailing text with a later close brace). -/
theorem braceCandidate_first_to_last_witness :
    ∃ i j, i < j ∧
      (stripFences c6Input.data)[i]? = some lbraceChar ∧
      (stripFences c6Input.data)[j]? = some rbraceChar ∧
      (∀ k d, k < i → (stripFences c6Input.data)[k]? = some d → d ≠ lbraceChar) ∧
      (∀ k d, j < k → (stripFences c6Input.data)[k]? = some d → d ≠ rbraceChar) ∧
      (parseFnCandidate c6Input).getD [] =
        ((stripFences c6Input.data).drop i).take (j - i + 1) := by
  obtain ⟨i, j, hij, h1, h2, h3, h4, h5⟩ :=
    braceCandidate_first_to_last c6Input ((parseFnCandidate c6Input).getD []) rfl
  exact ⟨i, j, hij, h1, h2, h3, h4, h5⟩

/-! ## C8 — parse_fn round-trip -/

/-- **C8** (confirmed): for every well-formed decoded payload — an object
whose `entities` and `relationships` values are lists of objects —
`parse_fn` produces exactly one entity tuple per entity element, reading
`entity_name`/`entity_type`/`entity_description`, and exactly one
relationship tuple per relationship element, reading
`source_entity`/`target_entity`/`relation`/`relationship_description`,
count-for-count and in input order. -/
theorem parse_fn_roundtrip (s : String) (cand : List Char)
    (members : List (String × Json)) (es rs : List Json)
    (hc : parseFnCandidate s = some cand)
    (hl : jsonLoadsL cand = some (.obj members))
    (hes : (dictGet members "entities").getD (.arr []) = .arr es)
    (hrs : (dictGet members "relationships").getD (.arr []) = .arr rs)
    (hesall : ∀ x ∈ es, isObjB x = true)
    (hrsall : ∀ x ∈ rs, isObjB x = true) :
    parse_fn s = .ok (es.map entValue, rs.map relValue) ∧
    (es.map entValue).length = es.length ∧
    (rs.map relValue).length = rs.length := by
  exact ⟨parse_fn_decoded s cand members es rs hc hl hes hrs hesall hrsall,
    List.length_map es entValue, List.length_map rs relValue⟩

/-- Witness for `parse_fn_roundtrip` at a concrete payload with one
entity and one relationship. -/
theorem parse_fn_roundtrip_witness :
    parse_fn c8Payload = .ok (c8Entities.map entValue, c8Rels.map relValue) ∧
    (c8Entities.map entValue).length = c8Entities.length ∧
    (c8Rels.map relValue).length = c8Rels.length :=
  parse_fn_roundtrip c8Payload c8Payload.data c8Members c8Entities c8Rels
    rfl rfl rfl rfl (by decide) (by decide)

/-! ## C7 — empty-graph build is a no-op -/

/-- **C7** (confirmed): on a store holding zero triplets,
`build_communities` returns without error, changes nothing, issues no LLM
call, and is idempotent: any number of repeated calls leaves the
freshly-constructed store's `entity_info` and `community_summary` empty. -/
theorem build_communities_empty_noop (chat : ChatFn) (clusterFn : ClusterFn)
    (st : Store) (n : Nat) :
    build_communities chat clusterFn [] st = (st, []) ∧
    (fun s => (build_communities chat clusterFn [] s).1)^[n] initStore = initStore ∧
    initStore.entity_info = [] ∧ initStore.community_summary = [] := by
  refine ⟨rfl, ?_, rfl, rfl⟩
  induction n with
  | zero => rfl
  | succ k ih =>
    rw [Function.iterate_succ_apply,
      show (build_communities chat clusterFn [] initStore).1 = initStore from rfl]
    exact ih

/-! ## C1 — the summary cache is not replaced wholesale -/

/-- **C1** (counterexample): the community-summary cache is *not*
replaced in its entirety by a rebuild.  After a first build produced the
summary for community 1, a rebuild over different data whose clustering
yields only community 2 (as `entity_info`, which *is* replaced wholesale,
shows) still leaves community 1's old summary in the cache. -/
theorem rebuild_keeps_stale_summary_cex :
    c1St1.community_summary = [(1, "SUMMARY")] ∧
    c1St2.community_summary = [(1, "SUMMARY"), (2, "SUMMARY")] ∧
    c1St2.entity_info = [("C", [2]), ("D", [2])] ∧
    List.lookup 1 c1St2.community_summary = some "SUMMARY" :=
  ⟨rfl, rfl, rfl, rfl⟩

theorem dictSet_lookup_ne (m : List (Nat × String)) (k : Nat) (v : String)
    (k0 : Nat) (h : k0 ≠ k) :
    List.lookup k0 (dictSet m k v) = List.lookup k0 m := by
  induction m with
  | nil =>
    simp only [dictSet, List.lookup]
    rw [show (k0 == k) = false from by simpa using h]
  | cons a m ih =>
    by_cases ha : a.1 = k
    · cases a
      simp_all [dictSet, List.lookup]
      simp [show (k0 == k) = false by simpa using h]
    · cases a
      simp_all [dictSet, List.lookup]

theorem summarize_preserves (chat : ChatFn) (ci : List (Nat × List String))
    (cache : List (Nat × String)) (k : Nat) (hk : k ∉ ci.map Prod.fst) :
    List.lookup k (summarize_communities chat cache ci).1 =
      List.lookup k cache := by
  induction ci generalizing cache with
  | nil => rfl
  | cons c rest ih =>
    simp only [List.map_cons, List.mem_cons] at hk
    push_neg at hk
    simp only [summarize_communities]
    rw [ih (dictSet cache c.1 (generate_community_summary chat (pyJoin "\n" c.2 ++ ".")).1)
      hk.2]
    exact dictSet_lookup_ne cache c.1 _ k hk.1

/-- **C1** (amended): a rebuild replaces `entity_info` in a single
assignment of the freshly collected map, but updates the summary cache
*incrementally*, one dict assignment per community (each following an
awaited LLM call), without ever clearing it — so a cache entry whose
community id is not among the rebuild's buckets survives the rebuild
unchanged. -/
theorem build_communities_incremental (chat : ChatFn) (clusterFn : ClusterFn)
    (triplets : List TripletRec) (st : Store)
    (hne : (create_nx_graph triplets).nodes.length ≠ 0) :
    (build_communities chat clusterFn triplets st).1.entity_info =
      (collect_community_info (create_nx_graph triplets)
        (clusterFn (create_nx_graph triplets) st.max_cluster_size)).1 ∧
    ∀ k, k ∉ ((collect_community_info (create_nx_graph triplets)
        (clusterFn (create_nx_graph triplets) st.max_cluster_size)).2.map Prod.fst) →
      List.lookup k (build_communities chat clusterFn triplets st).1.community_summary =
        List.lookup k st.community_summary := by
  constructor
  · simp only [build_communities, if_neg hne]
  · intro k hk
    simp only [build_communities, if_neg hne]
    exact summarize_preserves chat _ st.community_summary k hk

/-- Witness for `build_communities_incremental` on the C1 fixture
rebuild. -/
theorem build_communities_incremental_witness :
    (build_communities constChat c1ClusterFn2 c1Trip2 c1St1).1.entity_info =
      (collect_community_info (create_nx_graph c1Trip2)
        (c1ClusterFn2 (create_nx_graph c1Trip2) c1St1.max_cluster_size)).1 ∧
    List.lookup 1 (build_communities constChat c1ClusterFn2 c1Trip2 c1St1).1.community_summary =
      List.lookup 1 c1St1.community_summary := by
  obtain ⟨h1, h2⟩ :=
    build_communities_incremental constChat c1ClusterFn2 c1Trip2 c1St1 (by decide)
  exact ⟨h1, h2 1 (by decide)⟩

/-! ## C2 — membership is right but the summary text lacks descriptions -/

/-- **C2** (code bug): on extractor-produced triplets clustered into one
community, every entity maps to that community and the summary derivation
is invoked exactly once — but the text it receives does *not* contain the
edge descriptions, because the extractor stores each description under
the properties key `relation_description` while the store reads
`relationship_description` (and falls back to `""`). -/
theorem extractor_store_description_key_mismatch :
    List.lookup "A" c2Result.1.entity_info = some [0] ∧
    List.lookup "B" c2Result.1.entity_info = some [0] ∧
    List.lookup "C" c2Result.1.entity_info = some [0] ∧
    c2Result.2 = [[⟨"system", COMMUNITY_SUMMARY_SYSTEM_PROMPT⟩, ⟨"user", c2SummaryText⟩]] ∧
    ¬ ("d1".data <:+: c2SummaryText.data) ∧
    ¬ ("d2".data <:+: c2SummaryText.data) ∧
    (∀ t ∈ c2Triplets,
      List.lookup "relationship_description" t.2.1.properties = none ∧
      List.lookup "relation_description" t.2.1.properties = some "d1" ∨
      List.lookup "relationship_description" t.2.1.properties = none ∧
      List.lookup "relation_description" t.2.1.properties = some "d2") := by
  refine ⟨rfl, rfl, rfl, rfl, by decide, by decide, by decide⟩

/-! ## C3 — only ValueError is degraded to an empty extraction -/

/-- **C3** (counterexample): a non-`ValueError` failure of the per-chunk
LLM invocation (here a timeout) is *not* treated as zero triplets: it
propagates out of the chunk, and through `run_jobs` it aborts the whole
batch, losing the other chunks' results. -/
theorem extractor_non_valueError_cex :
    aextract (.error .timeoutError) c3Node = .error .timeoutError ∧
    extractor_acall c3Llm [c3GoodNode, c3Node] = .error .timeoutError :=
  ⟨rfl, rfl⟩

/-- **C3** (amended): the extractor's per-chunk handler catches exactly
`ValueError`: a `ValueError` from the invocation-plus-parse step is
degraded to zero entities and zero relations for that chunk (leaving the
chunk unchanged), while any other exception kind propagates and, on a
non-empty batch, aborts `acall`. -/
theorem aextract_catches_only_valueError (node : XNode) (e : PyExc)
    (he : e ≠ .valueError) (nodes : List XNode) :
    aextract (.error .valueError) node = .ok node ∧
    aextract (.error e) node = .error e ∧
    extractor_acall (fun _ => .error .valueError) nodes = .ok nodes ∧
    (nodes ≠ [] → extractor_acall (fun _ => .error e) nodes = .error e) := by
  have h1 : ∀ nd : XNode, aextract (.error .valueError) nd = .ok nd := by
    intro nd; cases nd; simp [aextract]
  have h2 : ∀ nd : XNode, aextract (.error e) nd = .error e := by
    intro nd
    cases e with
    | valueError => exact absurd rfl he
    | typeError => rfl
    | attributeError => rfl
    | timeoutError => rfl
    | otherError => rfl
  refine ⟨h1 node, h2 node, ?_, ?_⟩
  · induction nodes with
    | nil => rfl
    | cons n rest ih => simp [extractor_acall, h1, ih]
  · intro hne
    cases nodes with
    | nil => exact absurd rfl hne
    | cons n rest => simp [extractor_acall, h2]

/-- Witness for `aextract_catches_only_valueError` with a timeout on a
one-chunk batch. -/
theorem aextract_catches_only_valueError_witness :
    aextract (.error .valueError) c3Node = .ok c3Node ∧
    aextract (.error .timeoutError) c3Node = .error .timeoutError ∧
    extractor_acall (fun _ => .error .timeoutError) [c3Node] = .error .timeoutError := by
  obtain ⟨h1, h2, _, h4⟩ :=
    aextract_catches_only_valueError c3Node .timeoutError (by decide) [c3Node]
  exact ⟨h1, h2, h4 (List.cons_ne_nil _ _)⟩

/-! ## C4 — the fallback path and the lazy build's chat calls -/

/-- **C4** (counterexample): a request whose retrieval yields no
candidate entity still issues an LLM chat call when the summary cache is
empty — the summary-fetch step lazily triggers `build_communities`, which
issues one summarization chat call per community, before the fallback
string is returned. -/
theorem fallback_still_issues_chat_call_cex :
    c4Result.1 = FALLBACK_ANSWER ∧ c4Result.2.2.length = 1 :=
  ⟨rfl, rfl⟩

/-- **C4** (amended): whenever the retrieval step yields no candidate
entity mapped to a community, `acustom_query` returns the fixed fallback
string without issuing any per-community or aggregation chat call — every
chat call of such a request comes from the lazy community build inside
the summary-fetch step, and when the cache is already non-empty there is
no chat call at all. -/
theorem acustom_query_fallback (chat : ChatFn) (clusterFn : ClusterFn)
    (triplets : List TripletRec) (texts : List String) (q : String) (st : Store)
    (h : retrieve_entity_communities st.entity_info (get_entities texts) = []) :
    (acustom_query chat clusterFn triplets texts q st).1 = FALLBACK_ANSWER ∧
    (acustom_query chat clusterFn triplets texts q st).2.2 =
      (get_community_summaries chat clusterFn triplets st).2.2 ∧
    (st.community_summary ≠ [] →
      (acustom_query chat clusterFn triplets texts q st).2.2 = []) := by
  have hloop : ∀ l, community_answers_loop chat q [] l = ([], []) := by
    intro l
    induction l with
    | nil => rfl
    | cons x xs ih => simp [community_answers_loop, ih]
  have hmain :
      acustom_query chat clusterFn triplets texts q st =
        (FALLBACK_ANSWER, (get_community_summaries chat clusterFn triplets st).2.1,
          (get_community_summaries chat clusterFn triplets st).2.2) := by
    simp [acustom_query, h, hloop]
  refine ⟨by rw [hmain], by rw [hmain], fun hcs => ?_⟩
  rw [hmain]
  have : st.community_summary.isEmpty = false := by
    simpa [List.isEmpty_iff] using hcs
  simp [get_community_summaries, this]

/-- Witness for `acustom_query_fallback`: warm cache, no retrieved text —
the fallback is returned with zero chat calls. -/
theorem acustom_query_fallback_witness :
    (acustom_query constChat c4ClusterFn c4Triplets [] "q" c4StWarm).1 =
      FALLBACK_ANSWER ∧
    (acustom_query constChat c4ClusterFn c4Triplets [] "q" c4StWarm).2.2 = [] := by
  obtain ⟨h1, _, h3⟩ :=
    acustom_query_fallback constChat c4ClusterFn c4Triplets [] "q" c4StWarm rfl
  exact ⟨h1, h3 (by decide)⟩

/-! ## C9 — answer aggregation -/

theorem flatMap_singleton (f : Char → List Char) (l : List Char)
    (h : ∀ c ∈ l, f c = [c]) : l.flatMap f = l := by
  induction l with
  | nil => rfl
  | cons c cs ih =>
    simp [List.flatMap_cons, h c (by simp), ih (fun d hd => h d (by simp [hd]))]

theorem pyStrRepr_plain (s : String) (h : plainPyStr s = true) :
    ∃ q, (pyStrRepr s).data = q :: s.data ++ [q] := by
  simp only [plainPyStr, Bool.and_eq_true, List.all_eq_true, decide_eq_true_eq] at h
  obtain ⟨hchars, hquotes⟩ := h
  refine ⟨if ('\'' ∈ s.data) ∧ ¬ ('"' ∈ s.data) then '"' else '\'', ?_⟩
  simp only [pyStrRepr]
  rw [flatMap_singleton]
  intro c hc
  have hch := hchars c hc
  simp only [Bool.and_eq_true, decide_eq_true_eq] at hch
  obtain ⟨⟨hc1, hc2⟩, hc3⟩ := hch
  have hprint : pyIsPrintable c = true := by
    simp only [pyIsPrintable]
    rw [if_neg (by omega), if_neg (by omega), if_neg (by omega), if_neg (by omega)]
  have hnl : c ≠ '\n' := by intro hx; subst hx; simp at hc2
  have hcr : c ≠ '\r' := by intro hx; subst hx; simp at hc2
  have htb : c ≠ '\t' := by intro hx; subst hx; simp at hc2
  by_cases hq : ('\'' ∈ s.data) ∧ ¬ ('"' ∈ s.data)
  · have hcq : c ≠ '"' := fun hx => hq.2 (hx ▸ hc)
    simp [pyReprChar, if_pos hq, hc1, hcq, hnl, hcr, htb, hprint]
  · have hcq : c ≠ '\'' := by
      intro hx
      subst hx
      by_cases hd : '"' ∈ s.data
      · exact hquotes ⟨hc, hd⟩
      · exact hq ⟨hc, hd⟩
    simp [pyReprChar, if_neg hq, hc1, hcq, hnl, hcr, htb, hprint]

theorem mem_infix_pyJoin (sep : String) (l : List String) (x : String)
    (hx : x ∈ l) : x.data <:+: (pyJoin sep l).data := by
  induction l with
  | nil => simp at hx
  | cons y ys ih =>
    rcases List.mem_cons.mp hx with rfl | hmem
    · cases ys with
      | nil => exact List.infix_refl _
      | cons z zs =>
        refine ⟨[], ((sep ++ pyJoin sep (z :: zs))).data, ?_⟩
        simp [pyJoin, String.data_append]
    · cases ys with
      | nil => simp at hmem
      | cons z zs =>
        have h1 := ih hmem
        have h2 : (pyJoin sep (z :: zs)).data <:+: (pyJoin sep (y :: z :: zs)).data := by
          refine ⟨(y ++ sep).data, [], ?_⟩
          simp [pyJoin, String.data_append]
        exact h1.trans h2

theorem dropWhile_dropWhile_self (p : Char → Bool) (l : List Char) :
    (l.dropWhile p).dropWhile p = l.dropWhile p := by
  induction l with
  | nil => rfl
  | cons c cs ih =>
    by_cases hp : p c = true
    · simp [List.dropWhile_cons, hp, ih]
    · simp [List.dropWhile_cons, hp]

theorem pyStripChars_dropWhile (l : List Char) :
    pyStripChars (l.dropWhile pyIsSpace) = pyStripChars l := by
  simp [pyStripChars, dropWhile_dropWhile_self]

/-- **C9** (counterexample): the aggregation call's user content renders
the answers through Python `repr`, so an answer containing a backslash is
*not* embedded verbatim: `a\b` does not occur in
`Intermediate answers: ['a\\b']`. -/
theorem aggregate_answers_backslash_cex :
    (aggregate_answers constChat ["a\\b"]).2 =
      [[⟨"system", AGGREGATE_ANSWERS_PROMPT⟩, ⟨"user", aggUserContent ["a\\b"]⟩]] ∧
    ¬ ("a\\b".data <:+: (aggUserContent ["a\\b"]).data) :=
  ⟨rfl, by decide⟩

/-- **C9** (amended): for every non-empty answer list,
`aggregate_answers` issues exactly one chat call, whose user content is
the fixed label plus the Python `repr` rendering of the answer list —
so an answer need not appear verbatim (repr escapes backslashes and
every non-printable character), but every answer consisting solely of
printable ASCII without a backslash and without both quote characters
does — and the returned text is the chat response with one leading
`assistant:` label removed (when present) and surrounding whitespace
stripped. -/
theorem aggregate_answers_contract (chat : ChatFn) (answers : List String)
    (hne : answers ≠ []) :
    (aggregate_answers chat answers).2 =
      [[⟨"system", AGGREGATE_ANSWERS_PROMPT⟩, ⟨"user", aggUserContent answers⟩]] ∧
    (aggregate_answers chat answers).2.length = 1 ∧
    (∀ a ∈ answers, plainPyStr a = true → a.data <:+: (aggUserContent answers).data) ∧
    (∀ t : String, cleanChatResponse ("assistant:" ++ t) = pyStrip t) ∧
    (∀ t : String, ¬ (t.data.take 10 = "assistant:".data) →
      cleanChatResponse t = pyStrip t) := by
  refine ⟨rfl, rfl, fun a ha hplain => ?_, fun t => ?_, fun t ht => ?_⟩
  · obtain ⟨q, hq⟩ := pyStrRepr_plain a hplain
    have h1 : a.data <:+: (pyStrRepr a).data := by
      rw [hq]; exact ⟨[q], [q], by simp⟩
    have h2 : (pyStrRepr a).data <:+: (pyJoin ", " (answers.map pyStrRepr)).data :=
      mem_infix_pyJoin ", " (answers.map pyStrRepr) (pyStrRepr a)
        (List.mem_map_of_mem pyStrRepr ha)
    have h3 : (pyJoin ", " (answers.map pyStrRepr)).data <:+:
        (aggUserContent answers).data := by
      refine ⟨("Intermediate answers: " ++ "[").data, "]".data, ?_⟩
      simp [aggUserContent, pyListRepr, String.data_append]
    exact (h1.trans h2).trans h3
  · have hlen : ("assistant:" : String).data.length = 10 := rfl
    have hdata : ("assistant:" ++ t).data = ("assistant:" : String).data ++ t.data :=
      String.data_append _ _
    simp only [cleanChatResponse, stripAssistantLabel, hdata]
    rw [show (("assistant:" : String).data ++ t.data).take 10 = ("assistant:" : String).data from by
        rw [← hlen]; exact List.take_left _ _,
      if_pos rfl,
      show (("assistant:" : String).data ++ t.data).drop 10 = t.data from by
        rw [← hlen]; exact List.drop_left _ _,
      pyStripChars_dropWhile]
    rfl
  · simp only [cleanChatResponse, stripAssistantLabel, if_neg ht]
    rfl

/-- Witness for `aggregate_answers_contract` at `["X", "Y"]`. -/
theorem aggregate_answers_contract_witness :
    (aggregate_answers constChat ["X", "Y"]).2.length = 1 ∧
    "X".data <:+: (aggUserContent ["X", "Y"]).data ∧
    "Y".data <:+: (aggUserContent ["X", "Y"]).data ∧
    cleanChatResponse ("assistant:" ++ "  final  ") = pyStrip "  final  " := by
  obtain ⟨_, h2, h3, h4, _⟩ :=
    aggregate_answers_contract constChat ["X", "Y"] (by decide)
  exact ⟨h2, h3 "X" (by decide) (by decide), h3 "Y" (by decide) (by decide),
    h4 "  final  "⟩

/-! ## C10 — the tagger touches only the first node -/

theorem metaSet_lookup_ne (m : List (String × TagMetaVal)) (k : String)
    (v : TagMetaVal) (k0 : String) (h : k0 ≠ k) :
    List.lookup k0 (metaSet m k v) = List.lookup k0 m := by
  induction m with
  | nil =>
    simp only [metaSet, List.lookup]
    rw [show (k0 == k) = false from by simpa using h]
  | cons a m ih =>
    by_cases ha : a.1 = k
    · cases a
      simp_all [metaSet, List.lookup]
      simp [show (k0 == k) = false by simpa using h]
    · cases a
      simp_all [metaSet, List.lookup]

/-- **C10** (counterexample): when only the tag-generation step fails,
`AutoTagger.acall` does *not* return the nodes with `summary = ""` — the
successfully produced global summary is attached (with `tags = []`), so
the claimed "any step fails ⟹ summary is empty and tags are empty"
does not hold. -/
theorem tagger_tag_failure_cex :
    tagger_acall c10Predict [] c10Nodes =
      [⟨"text1", [("page", .s "1"), ("summary", .s "GS"), ("tags", .tags [])]⟩,
       ⟨"text2", []⟩] ∧
    TagMetaVal.s "GS" ≠ TagMetaVal.s "" :=
  ⟨rfl, by decide⟩

/-- **C10** (amended): `AutoTagger.acall` is total on the embedding (no
exception escapes: each pipeline step degrades its own failures — failed
chunk summaries become `""`, a failed or input-less global summary
becomes `""`, failed tag generation becomes `[]`); in every case exactly
the first node receives the `summary` and `tags` metadata keys, every
other node and every other metadata key of the first node being left
unchanged. -/
theorem tagger_first_node_only (predict : PredictFn) (existing : List String)
    (nodes : List TNode) (hne : nodes ≠ []) :
    (tagger_acall predict existing nodes).length = nodes.length ∧
    (tagger_acall predict existing nodes).drop 1 = nodes.drop 1 ∧
    (∀ n0, nodes.head? = some n0 →
      (tagger_acall predict existing nodes).head? = some
        (withSummaryTags n0
          (create_global_summary predict (nodes.map (summarize_chunk predict)))
          (remove_duplicate_tags existing
            (generate_tags predict
              (create_global_summary predict (nodes.map (summarize_chunk predict)))))) ∧
      ∀ k, k ≠ "summary" → k ≠ "tags" →
        ∀ n1, (tagger_acall predict existing nodes).head? = some n1 →
          List.lookup k n1.metadata = List.lookup k n0.metadata) ∧
    ((∀ ctx, ∃ err, predict .globalSummary ctx = .error err) →
      create_global_summary predict (nodes.map (summarize_chunk predict)) = "") ∧
    ((∀ ctx, ∃ err, predict .tagGen ctx = .error err) →
      ∀ s, generate_tags predict s = []) := by
  cases nodes with
  | nil => exact absurd rfl hne
  | cons n rest =>
    refine ⟨?_, ?_, ?_, ?_, ?_⟩
    · simp [tagger_acall, attachToFirst]
    · simp [tagger_acall, attachToFirst]
    · intro n0 h0
      simp only [List.head?_cons, Option.some_inj] at h0
      subst h0
      refine ⟨by simp [tagger_acall, attachToFirst], ?_⟩
      intro k hk1 hk2 n1 h1
      simp only [tagger_acall, List.isEmpty_cons, attachToFirst,
        List.head?_cons, Option.some_inj, Bool.false_eq_true, if_false] at h1
      subst h1
      simp only [withSummaryTags]
      rw [metaSet_lookup_ne _ _ _ _ hk2, metaSet_lookup_ne _ _ _ _ hk1]
    · intro hfail
      simp only [create_global_summary]
      split
      · rfl
      · obtain ⟨err, herr⟩ := hfail _
        rw [herr]
    · intro hfail s
      simp only [generate_tags]
      split
      · rfl
      · obtain ⟨err, herr⟩ := hfail _
        rw [herr]

/-- Witness for `tagger_first_node_only` on the two-node fixture. -/
theorem tagger_first_node_only_witness :
    (tagger_acall c10Predict [] c10Nodes).length = c10Nodes.length ∧
    (tagger_acall c10Predict [] c10Nodes).drop 1 = c10Nodes.drop 1 := by
  obtain ⟨h1, h2, _, _, _⟩ :=
    tagger_first_node_only c10Predict [] c10Nodes (by decide)
  exact ⟨h1, h2⟩
